import Mathlib

/-!
Verification of the userion user-management library (Go, gorm-backed).

Shallow embedding notes:
- The database is a `List GormUserModel`; gorm query/update/delete semantics
  (`First`, `Updates` with a column map, `Delete`, `Update` of one column,
  `Count`, `Create` with the declared unique constraints) are modelled as
  list operations returning the new state and the affected-row count.
- `uuid.UUID` is modelled as `Nat` with `0` standing for `uuid.Nil`;
  `time.Time` as `Nat`; `UserStatus` (a Go string type) as `String`.
- `crypto/sha256`-based `HashPassword` is an external one-way function; the
  development is parametric in `hash : String → String → String`.
  `GenerateSalt` draws from `crypto/rand`; every operation that may generate
  a salt (or a uuid) takes the freshly drawn value as an explicit argument.
- Go `len` on a string is its byte length, modelled by `String.utf8ByteSize`.
- `encoding/json` marshalling of a `map[string]interface{}` and the stored
  `datatypes.JSON` column are modelled abstractly: `GoValue` is the dynamic
  value universe (with a `bad` constructor for values `json.Marshal`
  rejects, e.g. channels or functions), and `JsonBlob` is the column's byte
  content, distinguishing the zero-length value, a well-formed object
  encoding, and non-empty bytes that fail to parse as an object.
-/

/-- The dynamic (`interface{}`) values carried in the extension payload.
`bad` stands for a value `encoding/json` cannot marshal. -/
inductive GoValue where
  | str : String → GoValue
  | num : Int → GoValue
  | boolean : Bool → GoValue
  | obj : List (String × GoValue) → GoValue
  | bad : GoValue

mutual

/-- Whether `json.Marshal` succeeds on a single dynamic value. -/
def GoValue.marshalable : GoValue → Bool
  | GoValue.str _ => true
  | GoValue.num _ => true
  | GoValue.boolean _ => true
  | GoValue.obj l => marshalableList l
  | GoValue.bad => false

/-- Whether `json.Marshal` succeeds on a `map[string]interface{}`. -/
def marshalableList : List (String × GoValue) → Bool
  | [] => true
  | (_, v) :: rest => v.marshalable && marshalableList rest

end

/-- Byte content of the `datatypes.JSON` column. `empty` is the nil /
zero-length slice; `encoded m` is a well-formed JSON-object encoding of the
map `m` (so it has positive length); `malformed` is non-empty bytes on which
`json.Unmarshal` into a map fails. -/
inductive JsonBlob where
  | empty : JsonBlob
  | encoded : List (String × GoValue) → JsonBlob
  | malformed : JsonBlob

/-- Model of the `userion.UserStatus` constants (part_000). -/
def UserStatusActive : String := "active"

def UserStatusSuspended : String := "suspended"

def UserStatusLocked : String := "locked"

def UserStatusInactive : String := "inactive"

/-- Model of `userion.DefaultUserStatus` (part_000 line 26). -/
def DefaultUserStatus : String := UserStatusInactive

/-- Errors surfaced by the manager. `dbUniqueViolation` stands for the raw
storage-engine error returned when an insert violates one of the unique
constraints declared by the gorm tags (id primary key, unique username,
email, phone); it is a distinct value from the three `userion` errors. -/
inductive UserErr where
  | userNotFound
  | userAlreadyExists
  | invalidPassword
  | dbUniqueViolation
deriving DecidableEq

/-- Model of `GormUserModel` (user_manager_gorm.go lines 14-26). -/
structure GormUserModel where
  id : Nat
  name : String
  username : String
  email : String
  password : String
  salt : String
  phone : String
  createdAt : Nat
  enabled : Bool
  status : String
  data : JsonBlob

/-- Model of the business `User` (part_000 lines 37-49). `data` is an
`Option` because a Go map field can be nil. -/
structure User where
  id : Nat
  name : String
  username : String
  email : String
  password : String
  salt : String
  phone : String
  createdAt : Nat
  enabled : Bool
  status : String
  data : Option (List (String × GoValue))

/-- The map produced by `ToUser` from the stored blob (lines 30-38): skip
decoding when the blob has zero length, decode a well-formed encoding, and
fall back to an empty map when decoding fails. -/
def blobToMap : JsonBlob → List (String × GoValue)
  | JsonBlob.empty => []
  | JsonBlob.encoded m => m
  | JsonBlob.malformed => []

/-- Model of `GormUserModel.ToUser` (lines 29-53). -/
def GormUserModel.toUser (g : GormUserModel) : User :=
  { id := g.id
    name := g.name
    username := g.username
    email := g.email
    password := g.password
    salt := g.salt
    phone := g.phone
    createdAt := g.createdAt
    enabled := g.enabled
    status := g.status
    data := some (blobToMap g.data) }

/-- The blob stored for a business-model `data` field (lines 57-69): nil map
and marshal failure both become the literal `{}` encoding. -/
def mapToBlob : Option (List (String × GoValue)) → JsonBlob
  | none => JsonBlob.encoded []
  | some m => if marshalableList m then JsonBlob.encoded m else JsonBlob.encoded []

/-- Model of `NewGormUserModelFromUser` (lines 56-84). -/
def NewGormUserModelFromUser (u : User) : GormUserModel :=
  { id := u.id
    name := u.name
    username := u.username
    email := u.email
    password := u.password
    salt := u.salt
    phone := u.phone
    createdAt := u.createdAt
    enabled := u.enabled
    status := u.status
    data := mapToBlob u.data }

/-- Dynamic values appearing in the `updatedData` map of the update calls.
`str`, `boolean`, `obj` and `json` are the payload types the code inspects
or stores; `other` stands for any other `interface{}` value (on which every
type assertion in the normalizer fails). -/
inductive FieldValue where
  | str : String → FieldValue
  | boolean : Bool → FieldValue
  | obj : List (String × GoValue) → FieldValue
  | json : JsonBlob → FieldValue
  | other : FieldValue

/-- Go map read `m[k]` (with the comma-ok idiom) over the assoc-list model. -/
def mapLookup (m : List (String × FieldValue)) (k : String) : Option FieldValue :=
  match m with
  | [] => none
  | (k1, v) :: rest => if k1 = k then some v else mapLookup rest k

/-- Go map write `m[k] = v`: replace the existing entry or add one. -/
def mapInsert (m : List (String × FieldValue)) (k : String) (v : FieldValue) :
    List (String × FieldValue) :=
  match m with
  | [] => [(k, v)]
  | (k1, v1) :: rest =>
      if k1 = k then (k, v) :: rest else (k1, v1) :: mapInsert rest k v

/-- Go `delete(m, k)`. -/
def mapErase (m : List (String × FieldValue)) (k : String) :
    List (String × FieldValue) :=
  match m with
  | [] => []
  | (k1, v1) :: rest =>
      if k1 = k then mapErase rest k else (k1, v1) :: mapErase rest k

/-- The password block shared by the three update methods (e.g. lines
281-291): a `Password` entry that type-asserts to a string of byte length
below 64 is replaced by its digest under a freshly generated salt, and the
`Salt` entry is set to that salt. `ns` is the value drawn by `GenerateSalt`. -/
def passwordStep (hash : String → String → String) (ns : String)
    (m : List (String × FieldValue)) : List (String × FieldValue) :=
  match mapLookup m "Password" with
  | some (FieldValue.str p) =>
      if p.utf8ByteSize < 64 then
        mapInsert (mapInsert m "Password" (FieldValue.str (hash p ns)))
          "Salt" (FieldValue.str ns)
      else m
  | _ => m

/-- The extension-payload block shared by the three update methods (e.g.
lines 294-302): a `Data` entry that type-asserts to a map is JSON-encoded;
on encoding failure the entry is deleted from the change-set. -/
def dataStep (m : List (String × FieldValue)) : List (String × FieldValue) :=
  match mapLookup m "Data" with
  | some (FieldValue.obj d) =>
      if marshalableList d then
        mapInsert m "Data" (FieldValue.json (JsonBlob.encoded d))
      else mapErase m "Data"
  | _ => m

/-- The full update normalizer: the two blocks run in source order. -/
def normalizeUpdate (hash : String → String → String) (ns : String)
    (m : List (String × FieldValue)) : List (String × FieldValue) :=
  dataStep (passwordStep hash ns m)

/-- Semantics of a gorm `Updates` column map applied to one row: each column
named in the map (with a value of the column's type) is set, every other
column keeps its value. The `ID` primary-key column is never named by this
code's change-sets and is not modelled as updatable. -/
def applyChangeSet (u : GormUserModel) (m : List (String × FieldValue)) :
    GormUserModel :=
  { u with
    name := match mapLookup m "Name" with
      | some (FieldValue.str s) => s
      | _ => u.name
    username := match mapLookup m "Username" with
      | some (FieldValue.str s) => s
      | _ => u.username
    email := match mapLookup m "Email" with
      | some (FieldValue.str s) => s
      | _ => u.email
    password := match mapLookup m "Password" with
      | some (FieldValue.str s) => s
      | _ => u.password
    salt := match mapLookup m "Salt" with
      | some (FieldValue.str s) => s
      | _ => u.salt
    phone := match mapLookup m "Phone" with
      | some (FieldValue.str s) => s
      | _ => u.phone
    enabled := match mapLookup m "Enabled" with
      | some (FieldValue.boolean b) => b
      | _ => u.enabled
    status := match mapLookup m "Status" with
      | some (FieldValue.str s) => s
      | _ => u.status
    data := match mapLookup m "Data" with
      | some (FieldValue.json j) => j
      | _ => u.data }

/-- gorm `Where(cond).Updates(m)`: new table state plus `RowsAffected`. -/
def gormUpdates (db : List GormUserModel) (cond : GormUserModel → Bool)
    (m : List (String × FieldValue)) : List GormUserModel × Nat :=
  (db.map (fun r => if cond r then applyChangeSet r m else r),
   (db.filter cond).length)

/-- gorm `Where(cond).Update(column, value)` for the single-column paths,
with `f` the column assignment. -/
def gormUpdateColumn (db : List GormUserModel) (cond : GormUserModel → Bool)
    (f : GormUserModel → GormUserModel) : List GormUserModel × Nat :=
  (db.map (fun r => if cond r then f r else r), (db.filter cond).length)

/-- gorm `Create`: the storage engine enforces the unique constraints
declared on `GormUserModel` (primary-key id; unique username, email, phone)
at insert time; a violation aborts the insert with a storage error. -/
def gormInsert (db : List GormUserModel) (g : GormUserModel) :
    Except UserErr (List GormUserModel) :=
  if db.any (fun v =>
      v.id == g.id || v.username == g.username ||
      v.email == g.email || v.phone == g.phone) then
    Except.error UserErr.dbUniqueViolation
  else Except.ok (db ++ [g])

/-- The in-place defaulting block of `CreateUser` (lines 197-205): a nil id
is replaced by a freshly generated uuid `fid`, an empty status by
`DefaultUserStatus`. -/
def createDefaults (fid : Nat) (user : User) : User :=
  let u := if user.id = 0 then { user with id := fid } else user
  if u.status = "" then { u with status := DefaultUserStatus } else u

/-- The credential block of `CreateUser` (lines 217-232): an empty salt is
replaced by a freshly generated salt `fsalt`; a non-empty password of byte
length below 64 is replaced by its digest under the (possibly new) salt.
The source applies each assignment to both `user` and `gormUser`; since
`gormUser` is the field-for-field image of `user`, this is modelled by
updating the `User` and converting afterwards. -/
def createCredentials (hash : String → String → String) (fsalt : String)
    (user : User) : User :=
  let u := if user.salt = "" then { user with salt := fsalt } else user
  if u.password ≠ "" ∧ u.password.utf8ByteSize < 64 then
    { u with password := hash u.password u.salt }
  else u

/-- Model of `GormUserManager.CreateUser` (lines 196-240). `fid` and `fsalt`
are the values drawn by `uuid.New` and `GenerateSalt`. The duplicate
pre-check counts rows matching the username OR the email (line 212); the
phone column is only protected by the storage-level unique constraint. On
success the returned pair is the new table state and the caller's `User`
as mutated in place by the call. -/
def createUser (hash : String → String → String) (fid : Nat) (fsalt : String)
    (db : List GormUserModel) (user : User) :
    Except UserErr (List GormUserModel × User) :=
  let u2 := createDefaults fid user
  if 0 < (db.filter (fun v =>
      v.username == u2.username || v.email == u2.email)).length then
    Except.error UserErr.userAlreadyExists
  else
    let u4 := createCredentials hash fsalt u2
    match gormInsert db (NewGormUserModelFromUser u4) with
    | Except.error e => Except.error e
    | Except.ok db2 => Except.ok (db2, u4)

/-- Model of `GetUserByID` (lines 243-252); gorm `First` returns the first
matching row or `ErrRecordNotFound`. -/
def getUserByID (db : List GormUserModel) (i : Nat) : Except UserErr User :=
  match db.find? (fun r => r.id == i) with
  | none => Except.error UserErr.userNotFound
  | some g => Except.ok g.toUser

/-- Model of `GetUserByUsername` (lines 255-264). -/
def getUserByUsername (db : List GormUserModel) (uname : String) :
    Except UserErr User :=
  match db.find? (fun r => r.username == uname) with
  | none => Except.error UserErr.userNotFound
  | some g => Except.ok g.toUser

/-- Model of `GetUserByEmail` (lines 267-276). -/
def getUserByEmail (db : List GormUserModel) (em : String) :
    Except UserErr User :=
  match db.find? (fun r => r.email == em) with
  | none => Except.error UserErr.userNotFound
  | some g => Except.ok g.toUser

/-- Model of `VerifyPasswordByUsername` (lines 106-120). -/
def verifyPasswordByUsername (hash : String → String → String)
    (db : List GormUserModel) (uname password : String) :
    Except UserErr Unit :=
  match db.find? (fun r => r.username == uname) with
  | none => Except.error UserErr.userNotFound
  | some g =>
      if g.password != hash password g.salt then
        Except.error UserErr.invalidPassword
      else Except.ok ()

/-- Model of `VerifyPasswordByEmail` (lines 123-137). -/
def verifyPasswordByEmail (hash : String → String → String)
    (db : List GormUserModel) (em password : String) :
    Except UserErr Unit :=
  match db.find? (fun r => r.email == em) with
  | none => Except.error UserErr.userNotFound
  | some g =>
      if g.password != hash password g.salt then
        Except.error UserErr.invalidPassword
      else Except.ok ()

/-- Model of `VerifyPasswordByID` (lines 140-154). -/
def verifyPasswordByID (hash : String → String → String)
    (db : List GormUserModel) (i : Nat) (password : String) :
    Except UserErr Unit :=
  match db.find? (fun r => r.id == i) with
  | none => Except.error UserErr.userNotFound
  | some g =>
      if g.password != hash password g.salt then
        Except.error UserErr.invalidPassword
      else Except.ok ()

/-- Model of `UpdateUserByID` (lines 279-312): normalize the change-set,
apply it to every row matching the id, surface a zero affected-row count as
`ErrUserNotFound`. -/
def updateUserByID (hash : String → String → String) (ns : String)
    (db : List GormUserModel) (i : Nat)
    (updatedData : List (String × FieldValue)) :
    Except UserErr (List GormUserModel) :=
  let m := normalizeUpdate hash ns updatedData
  let res := gormUpdates db (fun r => r.id == i) m
  if res.2 = 0 then Except.error UserErr.userNotFound else Except.ok res.1

/-- Model of `UpdateUserByUsername` (lines 315-348). -/
def updateUserByUsername (hash : String → String → String) (ns : String)
    (db : List GormUserModel) (uname : String)
    (updatedData : List (String × FieldValue)) :
    Except UserErr (List GormUserModel) :=
  let m := normalizeUpdate hash ns updatedData
  let res := gormUpdates db (fun r => r.username == uname) m
  if res.2 = 0 then Except.error UserErr.userNotFound else Except.ok res.1

/-- Model of `UpdateUserByEmail` (lines 351-384). -/
def updateUserByEmail (hash : String → String → String) (ns : String)
    (db : List GormUserModel) (em : String)
    (updatedData : List (String × FieldValue)) :
    Except UserErr (List GormUserModel) :=
  let m := normalizeUpdate hash ns updatedData
  let res := gormUpdates db (fun r => r.email == em) m
  if res.2 = 0 then Except.error UserErr.userNotFound else Except.ok res.1

/-- Model of `DeleteUserByID` (lines 387-396). -/
def deleteUserByID (db : List GormUserModel) (i : Nat) :
    Except UserErr (List GormUserModel) :=
  let affected := (db.filter (fun r => r.id == i)).length
  if affected = 0 then Except.error UserErr.userNotFound
  else Except.ok (db.filter (fun r => !(r.id == i)))

/-- Model of `DeleteUserByUsername` (lines 399-408). -/
def deleteUserByUsername (db : List GormUserModel) (uname : String) :
    Except UserErr (List GormUserModel) :=
  let affected := (db.filter (fun r => r.username == uname)).length
  if affected = 0 then Except.error UserErr.userNotFound
  else Except.ok (db.filter (fun r => !(r.username == uname)))

/-- Model of `DeleteUserByEmail` (lines 411-420). -/
def deleteUserByEmail (db : List GormUserModel) (em : String) :
    Except UserErr (List GormUserModel) :=
  let affected := (db.filter (fun r => r.email == em)).length
  if affected = 0 then Except.error UserErr.userNotFound
  else Except.ok (db.filter (fun r => !(r.email == em)))

/-- Model of `EnableUserByID` (lines 423-432). -/
def enableUserByID (db : List GormUserModel) (i : Nat) :
    Except UserErr (List GormUserModel) :=
  let res := gormUpdateColumn db (fun r => r.id == i)
    (fun r => { r with enabled := true })
  if res.2 = 0 then Except.error UserErr.userNotFound else Except.ok res.1

/-- Model of `DisableUserByID` (lines 435-444). -/
def disableUserByID (db : List GormUserModel) (i : Nat) :
    Except UserErr (List GormUserModel) :=
  let res := gormUpdateColumn db (fun r => r.id == i)
    (fun r => { r with enabled := false })
  if res.2 = 0 then Except.error UserErr.userNotFound else Except.ok res.1

/-- Model of `SetUserStatusByID` (lines 447-456). -/
def setUserStatusByID (db : List GormUserModel) (i : Nat) (st : String) :
    Except UserErr (List GormUserModel) :=
  let res := gormUpdateColumn db (fun r => r.id == i)
    (fun r => { r with status := st })
  if res.2 = 0 then Except.error UserErr.userNotFound else Except.ok res.1

/-- Model of `SetUserStatusByUsername` (lines 459-468). -/
def setUserStatusByUsername (db : List GormUserModel) (uname : String)
    (st : String) : Except UserErr (List GormUserModel) :=
  let res := gormUpdateColumn db (fun r => r.username == uname)
    (fun r => { r with status := st })
  if res.2 = 0 then Except.error UserErr.userNotFound else Except.ok res.1

/-- Model of `SetUserStatusByEmail` (lines 471-480). -/
def setUserStatusByEmail (db : List GormUserModel) (em : String)
    (st : String) : Except UserErr (List GormUserModel) :=
  let res := gormUpdateColumn db (fun r => r.email == em)
    (fun r => { r with status := st })
  if res.2 = 0 then Except.error UserErr.userNotFound else Except.ok res.1

/-- A fixed-width stand-in digest used only to build concrete witnesses and
counterexamples: 64 ASCII characters, like the hex encoding of SHA-256. -/
def hexPad : String :=
  "0123456789abcdef0123456789abcdef0123456789abcdef0123456789abcdef"

/-- A concrete executable instantiation of the hash parameter for witness
evaluation. -/
def demoHash (p s : String) : String := p ++ "/" ++ s

/-- A concrete stored record used in witness evaluations. -/
def wRec : GormUserModel :=
  { id := 1, name := "W", username := "walice", email := "w@x.com"
    password := demoHash "pw" "s0", salt := "s0", phone := "111"
    createdAt := 0, enabled := true, status := "active"
    data := JsonBlob.encoded [] }

/-- A stored record whose credential is well-formed but whose enabled flag
is off. -/
def cxDisabledRec : GormUserModel :=
  { id := 1, name := "D", username := "dave", email := "d@x.com"
    password := demoHash "pw" "ss", salt := "ss", phone := "222"
    createdAt := 0, enabled := false, status := "active"
    data := JsonBlob.encoded [] }

/-- A stored record with a known digest and salt, for the salt-rotation
counterexample. -/
def cxRecOld : GormUserModel :=
  { id := 1, name := "O", username := "olga", email := "o@x.com"
    password := "olddigest", salt := "oldsalt", phone := "333"
    createdAt := 0, enabled := true, status := "active"
    data := JsonBlob.encoded [] }

/-- First creation argument for the uniqueness counterexample. -/
def cxUserA : User :=
  { id := 0, name := "A", username := "alice", email := "a@x.com"
    password := "pa", salt := "", phone := "999"
    createdAt := 0, enabled := true, status := "active", data := none }

/-- Second creation argument: fresh username and email, colliding phone. -/
def cxUserB : User :=
  { id := 0, name := "B", username := "bob", email := "b@x.com"
    password := "pb", salt := "", phone := "999"
    createdAt := 0, enabled := true, status := "active", data := none }

/-- The table state after the first creation of the uniqueness
counterexample succeeds. -/
def cxDb1 : List GormUserModel :=
  match createUser demoHash 7 "sA" [] cxUserA with
  | Except.ok (d, _) => d
  | Except.error _ => []

/-- Creation argument with an unset status, for the defaulting claims. -/
def cxUserC : User :=
  { id := 5, name := "C", username := "carol", email := "c@x.com"
    password := "pc", salt := "sc", phone := "444"
    createdAt := 0, enabled := true, status := "", data := none }

/-- Creation argument with unset id, salt and status and a plaintext
password, for the create-mutation witnesses. -/
def wUserD : User :=
  { id := 0, name := "D", username := "dora", email := "dd@x.com"
    password := "pd", salt := "", phone := "555"
    createdAt := 3, enabled := true, status := "", data := none }

/-! ### Helper lemmas on the Go-map model -/

theorem mapLookup_insert_self (m : List (String × FieldValue)) (k : String)
    (v : FieldValue) : mapLookup (mapInsert m k v) k = some v := by
  induction m with
  | nil => simp [mapInsert, mapLookup]
  | cons hd tl ih =>
      by_cases h : hd.1 = k <;> simp [mapInsert, mapLookup, h, ih]

theorem mapLookup_insert_ne (m : List (String × FieldValue)) (k k1 : String)
    (v : FieldValue) (h : k1 ≠ k) :
    mapLookup (mapInsert m k v) k1 = mapLookup m k1 := by
  induction m with
  | nil => simp [mapInsert, mapLookup, Ne.symm h]
  | cons hd tl ih =>
      by_cases hk : hd.1 = k
      · simp [mapInsert, mapLookup, hk, Ne.symm h]
      · simp [mapInsert, mapLookup, hk, ih]

theorem mapLookup_erase_self (m : List (String × FieldValue)) (k : String) :
    mapLookup (mapErase m k) k = none := by
  induction m with
  | nil => simp [mapErase, mapLookup]
  | cons hd tl ih =>
      by_cases h : hd.1 = k <;> simp [mapErase, mapLookup, h, ih]

theorem mapLookup_erase_ne (m : List (String × FieldValue)) (k k1 : String)
    (h : k1 ≠ k) : mapLookup (mapErase m k) k1 = mapLookup m k1 := by
  induction m with
  | nil => simp [mapErase, mapLookup]
  | cons hd tl ih =>
      by_cases hk : hd.1 = k
      · simp [mapErase, mapLookup, hk, Ne.symm h, ih]
      · simp [mapErase, mapLookup, hk, ih]

/-! ### Helper lemmas on the update normalizer -/

theorem passwordStep_lookup_ne (hash : String → String → String)
    (ns : String) (m : List (String × FieldValue)) (k : String)
    (hp : k ≠ "Password") (hs : k ≠ "Salt") :
    mapLookup (passwordStep hash ns m) k = mapLookup m k := by
  unfold passwordStep
  cases h : mapLookup m "Password" with
  | none => rfl
  | some v =>
      cases v with
      | str p =>
          by_cases hl : p.utf8ByteSize < 64
          · simp [hl, mapLookup_insert_ne _ _ _ _ hs,
              mapLookup_insert_ne _ _ _ _ hp]
          · simp [hl]
      | boolean b => rfl
      | obj d => rfl
      | json j => rfl
      | other => rfl

theorem dataStep_lookup_ne (m : List (String × FieldValue)) (k : String)
    (hd : k ≠ "Data") : mapLookup (dataStep m) k = mapLookup m k := by
  unfold dataStep
  cases h : mapLookup m "Data" with
  | none => rfl
  | some v =>
      cases v with
      | str s => rfl
      | boolean b => rfl
      | obj d =>
          by_cases hm : marshalableList d = true
          · simp [hm, mapLookup_insert_ne _ _ _ _ hd]
          · simp [hm, mapLookup_erase_ne _ _ _ hd]
      | json j => rfl
      | other => rfl

theorem passwordStep_hashes (hash : String → String → String) (ns : String)
    (m : List (String × FieldValue)) (p : String)
    (hp : mapLookup m "Password" = some (FieldValue.str p))
    (hl : p.utf8ByteSize < 64) :
    mapLookup (passwordStep hash ns m) "Password"
        = some (FieldValue.str (hash p ns))
    ∧ mapLookup (passwordStep hash ns m) "Salt"
        = some (FieldValue.str ns) := by
  unfold passwordStep
  rw [hp]
  simp only [hl, if_pos]
  refine ⟨?_, mapLookup_insert_self _ _ _⟩
  rw [mapLookup_insert_ne _ _ _ _ (by simp), mapLookup_insert_self]

theorem passwordStep_passthrough (hash : String → String → String)
    (ns : String) (m : List (String × FieldValue)) (p : String)
    (hp : mapLookup m "Password" = some (FieldValue.str p))
    (hl : 64 ≤ p.utf8ByteSize) : passwordStep hash ns m = m := by
  unfold passwordStep
  rw [hp]
  simp [Nat.not_lt.mpr hl]

theorem normalizeUpdate_lookup_pw (hash : String → String → String)
    (ns : String) (m : List (String × FieldValue)) (p : String)
    (hp : mapLookup m "Password" = some (FieldValue.str p))
    (hl : p.utf8ByteSize < 64) :
    mapLookup (normalizeUpdate hash ns m) "Password"
        = some (FieldValue.str (hash p ns))
    ∧ mapLookup (normalizeUpdate hash ns m) "Salt"
        = some (FieldValue.str ns) := by
  have h := passwordStep_hashes hash ns m p hp hl
  unfold normalizeUpdate
  rw [dataStep_lookup_ne _ _ (by simp), dataStep_lookup_ne _ _ (by simp)]
  exact h

/-! ### Helper lemmas on the gorm operation models -/

theorem applyChangeSet_id (u : GormUserModel) (m : List (String × FieldValue)) :
    (applyChangeSet u m).id = u.id := rfl

theorem find?_update_map (db : List GormUserModel)
    (cond : GormUserModel → Bool) (f : GormUserModel → GormUserModel)
    (hf : ∀ r, cond (f r) = cond r) :
    (db.map (fun r => if cond r then f r else r)).find? cond
      = Option.map f (db.find? cond) := by
  induction db with
  | nil => rfl
  | cons hd tl ih =>
      by_cases h : cond hd = true
      · simp [List.find?, h, hf]
      · simp [List.find?, h, Bool.eq_false_iff.mpr h, ih]

theorem filter_length_pos_of_find? (db : List GormUserModel)
    (p : GormUserModel → Bool) (x : GormUserModel)
    (h : db.find? p = some x) : 0 < (db.filter p).length := by
  have hx : x ∈ db.filter p :=
    List.mem_filter.mpr ⟨List.mem_of_find?_eq_some h, List.find?_some h⟩
  exact List.length_pos.mpr (List.ne_nil_of_mem hx)

theorem updateUserByID_ok (hash : String → String → String) (ns : String)
    (db : List GormUserModel) (i : Nat)
    (m : List (String × FieldValue)) (u : GormUserModel)
    (hfind : db.find? (fun r => r.id == i) = some u) :
    updateUserByID hash ns db i m = Except.ok
        (gormUpdates db (fun r => r.id == i) (normalizeUpdate hash ns m)).1
    ∧ (gormUpdates db (fun r => r.id == i)
        (normalizeUpdate hash ns m)).1.find? (fun r => r.id == i)
        = some (applyChangeSet u (normalizeUpdate hash ns m)) := by
  have hpos := filter_length_pos_of_find? db _ u hfind
  simp only [Nat.pos_iff_ne_zero] at hpos
  constructor
  · unfold updateUserByID gormUpdates
    simp only [hpos, if_false, reduceIte]
  · unfold gormUpdates
    simp only
    rw [find?_update_map db _ _ (fun r => by rw [applyChangeSet_id]), hfind]
    rfl

theorem updateUserByUsername_ok (hash : String → String → String)
    (ns : String) (db : List GormUserModel) (uname : String)
    (m : List (String × FieldValue)) (u : GormUserModel)
    (hfind : db.find? (fun r => r.username == uname) = some u)
    (hnk : mapLookup m "Username" = none) :
    updateUserByUsername hash ns db uname m = Except.ok
        (gormUpdates db (fun r => r.username == uname)
          (normalizeUpdate hash ns m)).1
    ∧ (gormUpdates db (fun r => r.username == uname)
        (normalizeUpdate hash ns m)).1.find? (fun r => r.username == uname)
        = some (applyChangeSet u (normalizeUpdate hash ns m)) := by
  have hpos := filter_length_pos_of_find? db _ u hfind
  simp only [Nat.pos_iff_ne_zero] at hpos
  have hnk2 : mapLookup (normalizeUpdate hash ns m) "Username" = none := by
    unfold normalizeUpdate
    rw [dataStep_lookup_ne _ _ (by simp),
      passwordStep_lookup_ne _ _ _ _ (by simp) (by simp), hnk]
  constructor
  · unfold updateUserByUsername gormUpdates
    simp only [hpos, if_false, reduceIte]
  · unfold gormUpdates
    simp only
    rw [find?_update_map db _ _ (fun r => by
      show ((applyChangeSet r _).username == uname) = (r.username == uname)
      unfold applyChangeSet
      rw [hnk2]), hfind]
    rfl

theorem updateUserByEmail_ok (hash : String → String → String)
    (ns : String) (db : List GormUserModel) (em : String)
    (m : List (String × FieldValue)) (u : GormUserModel)
    (hfind : db.find? (fun r => r.email == em) = some u)
    (hnk : mapLookup m "Email" = none) :
    updateUserByEmail hash ns db em m = Except.ok
        (gormUpdates db (fun r => r.email == em)
          (normalizeUpdate hash ns m)).1
    ∧ (gormUpdates db (fun r => r.email == em)
        (normalizeUpdate hash ns m)).1.find? (fun r => r.email == em)
        = some (applyChangeSet u (normalizeUpdate hash ns m)) := by
  have hpos := filter_length_pos_of_find? db _ u hfind
  simp only [Nat.pos_iff_ne_zero] at hpos
  have hnk2 : mapLookup (normalizeUpdate hash ns m) "Email" = none := by
    unfold normalizeUpdate
    rw [dataStep_lookup_ne _ _ (by simp),
      passwordStep_lookup_ne _ _ _ _ (by simp) (by simp), hnk]
  constructor
  · unfold updateUserByEmail gormUpdates
    simp only [hpos, if_false, reduceIte]
  · unfold gormUpdates
    simp only
    rw [find?_update_map db _ _ (fun r => by
      show ((applyChangeSet r _).email == em) = (r.email == em)
      unfold applyChangeSet
      rw [hnk2]), hfind]
    rfl

/-! ### Helper lemmas on the create path -/

theorem createDefaults_eq (fid : Nat) (user : User) :
    createDefaults fid user =
      { user with
        id := if user.id = 0 then fid else user.id,
        status := if user.status = "" then DefaultUserStatus
                  else user.status } := by
  unfold createDefaults
  by_cases h1 : user.id = 0 <;> by_cases h2 : user.status = "" <;>
    simp [h1, h2]

theorem createCredentials_eq (hash : String → String → String)
    (fsalt : String) (user : User) :
    createCredentials hash fsalt user =
      { user with
        salt := if user.salt = "" then fsalt else user.salt,
        password :=
          if user.password ≠ "" ∧ user.password.utf8ByteSize < 64 then
            hash user.password (if user.salt = "" then fsalt else user.salt)
          else user.password } := by
  unfold createCredentials
  by_cases h1 : user.salt = "" <;>
    by_cases h2 : user.password ≠ "" ∧ user.password.utf8ByteSize < 64 <;>
    simp [h1, h2]

theorem createUser_ok_inv (hash : String → String → String) (fid : Nat)
    (fsalt : String) (db : List GormUserModel) (user : User)
    (db2 : List GormUserModel) (u4 : User)
    (hc : createUser hash fid fsalt db user = Except.ok (db2, u4)) :
    u4 = createCredentials hash fsalt (createDefaults fid user)
    ∧ db2 = db ++ [NewGormUserModelFromUser u4]
    ∧ ∀ v ∈ db, v.id ≠ u4.id ∧ v.username ≠ u4.username
        ∧ v.email ≠ u4.email ∧ v.phone ≠ u4.phone := by
  unfold createUser gormInsert at hc
  by_cases hdup : 0 < (db.filter (fun v =>
      v.username == (createDefaults fid user).username ||
      v.email == (createDefaults fid user).email)).length
  · simp [hdup] at hc
  · simp only [hdup, if_false, reduceIte] at hc
    by_cases hany : db.any (fun v =>
        v.id == (NewGormUserModelFromUser
          (createCredentials hash fsalt (createDefaults fid user))).id ||
        v.username == (NewGormUserModelFromUser
          (createCredentials hash fsalt (createDefaults fid user))).username ||
        v.email == (NewGormUserModelFromUser
          (createCredentials hash fsalt (createDefaults fid user))).email ||
        v.phone == (NewGormUserModelFromUser
          (createCredentials hash fsalt (createDefaults fid user))).phone) = true
    · simp [hany] at hc
    · simp only [hany, Bool.false_eq_true, if_false, reduceIte] at hc
      obtain ⟨hdb, hu⟩ := Prod.mk.injEq .. ▸ (Except.ok.injEq .. ▸ hc)
      subst hu
      refine ⟨rfl, hdb.symm, ?_⟩
      intro v hv
      have := List.any_eq_false.mp (Bool.eq_false_iff.mpr hany) v hv
      simp only [Bool.or_eq_true, not_or, beq_iff_eq] at this
      exact ⟨this.1.1.1, this.1.1.2, this.1.2, this.2⟩

/-! ### Helper lemmas for the not-found paths -/

theorem find?_none_of_nomatch (db : List GormUserModel)
    (p : GormUserModel → Bool) (h : ∀ r ∈ db, p r = false) :
    db.find? p = none :=
  List.find?_eq_none.mpr (fun x hx => by simp [h x hx])

theorem filter_nil_of_nomatch (db : List GormUserModel)
    (p : GormUserModel → Bool) (h : ∀ r ∈ db, p r = false) :
    db.filter p = [] :=
  List.filter_eq_nil_iff.mpr (fun x hx => by simp [h x hx])

theorem find?_append_singleton (db : List GormUserModel)
    (g : GormUserModel) (p : GormUserModel → Bool)
    (h : ∀ r ∈ db, p r = false) (hg : p g = true) :
    (db ++ [g]).find? p = some g := by
  induction db with
  | nil => simp [List.find?, hg]
  | cons hd tl ih =>
      have hhd := h hd (by simp)
      simp only [List.cons_append, List.find?, hhd]
      exact ih (fun r hr => h r (by simp [hr]))

/-! ### Claim theorems -/

/-- C1 counterexample: two creations with distinct usernames and emails but
the same phone. The first succeeds; the second fails with the raw storage
uniqueness error, not with `ErrUserAlreadyExists` (`Conflict`), because the
duplicate pre-check of `CreateUser` only inspects username and email. -/
theorem claim_c1_counterexample :
    (createUser demoHash 7 "sA" [] cxUserA).isOk = true
    ∧ createUser demoHash 8 "sB" cxDb1 cxUserB
        = Except.error UserErr.dbUniqueViolation
    ∧ cxUserB.phone = cxUserA.phone
    ∧ cxUserB.username ≠ cxUserA.username
    ∧ cxUserB.email ≠ cxUserA.email
    ∧ UserErr.dbUniqueViolation ≠ UserErr.userAlreadyExists := by
  refine ⟨rfl, rfl, rfl, ?_, ?_, ?_⟩ <;> decide

/-- C1 (amended): a creation colliding with an existing record on username
or email fails with `ErrUserAlreadyExists` and inserts nothing; a creation
colliding only on phone also fails atomically (nothing is inserted), but
with the storage engine's uniqueness error rather than the Conflict error. -/
theorem claim_c1_amended (hash : String → String → String) (fid : Nat)
    (fsalt : String) (db : List GormUserModel) (user : User)
    (v : GormUserModel) (hv : v ∈ db) :
    ((v.username = user.username ∨ v.email = user.email) →
      createUser hash fid fsalt db user
        = Except.error UserErr.userAlreadyExists)
    ∧ (v.phone = user.phone →
      createUser hash fid fsalt db user
          = Except.error UserErr.userAlreadyExists
      ∨ createUser hash fid fsalt db user
          = Except.error UserErr.dbUniqueViolation) := by
  have hdname : (createDefaults fid user).username = user.username := by
    rw [createDefaults_eq]
  have hdemail : (createDefaults fid user).email = user.email := by
    rw [createDefaults_eq]
  constructor
  · intro h
    have hmem : v ∈ db.filter (fun r =>
        r.username == (createDefaults fid user).username ||
        r.email == (createDefaults fid user).email) := by
      refine List.mem_filter.mpr ⟨hv, ?_⟩
      rw [hdname, hdemail]
      rcases h with h | h <;> simp [h]
    have hpos := List.length_pos.mpr (List.ne_nil_of_mem hmem)
    unfold createUser
    simp [hpos]
  · intro hph
    by_cases hdup : 0 < (db.filter (fun r =>
        r.username == (createDefaults fid user).username ||
        r.email == (createDefaults fid user).email)).length
    · left
      unfold createUser
      simp [hdup]
    · right
      have hphone : (NewGormUserModelFromUser
          (createCredentials hash fsalt (createDefaults fid user))).phone
            = user.phone := by
        show (createCredentials hash fsalt (createDefaults fid user)).phone
          = user.phone
        rw [createCredentials_eq, createDefaults_eq]
      have hany : db.any (fun r =>
          r.id == (NewGormUserModelFromUser
            (createCredentials hash fsalt (createDefaults fid user))).id ||
          r.username == (NewGormUserModelFromUser
            (createCredentials hash fsalt (createDefaults fid user))).username ||
          r.email == (NewGormUserModelFromUser
            (createCredentials hash fsalt (createDefaults fid user))).email ||
          r.phone == (NewGormUserModelFromUser
            (createCredentials hash fsalt (createDefaults fid user))).phone)
          = true := by
        refine List.any_eq_true.mpr ⟨v, hv, ?_⟩
        rw [hphone]
        simp [hph]
      unfold createUser gormInsert
      simp [hdup, hany]

/-- C1 witness: instantiation of the amended uniqueness theorem at a
one-record table colliding on email, and at one colliding on phone. -/
theorem claim_c1_witness :
    ((wRec.username = "zoe" ∨ wRec.email = "w@x.com") →
      createUser demoHash 70 "fs" [wRec]
          { cxUserC with username := "zoe", email := "w@x.com" }
        = Except.error UserErr.userAlreadyExists)
    ∧ (wRec.phone = (cxUserC : User).phone →
      createUser demoHash 70 "fs" [wRec] cxUserC
          = Except.error UserErr.userAlreadyExists
      ∨ createUser demoHash 70 "fs" [wRec] cxUserC
          = Except.error UserErr.dbUniqueViolation) := by
  constructor
  · exact (claim_c1_amended demoHash 70 "fs" [wRec]
      { cxUserC with username := "zoe", email := "w@x.com" }
      wRec (by simp)).1
  · exact (claim_c1_amended demoHash 70 "fs" [wRec] cxUserC
      wRec (by simp)).2

/-- C4: the password check of `VerifyPasswordByUsername` compares the
stored digest with `HashPassword(supplied, storedSalt)`: the secret whose
digest is stored verifies, and a secret whose digest under the stored salt
differs (which, absent hash collisions, is any other secret) is rejected
with `ErrInvalidPassword`. -/
theorem claim_c4 (hash : String → String → String)
    (db : List GormUserModel) (uname p p1 : String) (g : GormUserModel)
    (hfind : db.find? (fun r => r.username == uname) = some g)
    (hstored : g.password = hash p g.salt) :
    verifyPasswordByUsername hash db uname p = Except.ok ()
    ∧ (hash p1 g.salt ≠ hash p g.salt →
      verifyPasswordByUsername hash db uname p1
        = Except.error UserErr.invalidPassword) := by
  constructor
  · unfold verifyPasswordByUsername
    simp [hfind, hstored]
  · intro hne
    unfold verifyPasswordByUsername
    simp [hfind, hstored, bne_iff_ne, Ne.symm hne]

/-- C4 witness: the round trip evaluated on a concrete one-record table. -/
theorem claim_c4_witness :
    verifyPasswordByUsername demoHash [wRec] "walice" "pw" = Except.ok ()
    ∧ (demoHash "other" wRec.salt ≠ demoHash "pw" wRec.salt →
      verifyPasswordByUsername demoHash [wRec] "walice" "other"
        = Except.error UserErr.invalidPassword) :=
  claim_c4 demoHash [wRec] "walice" "pw" "other" wRec rfl rfl

/-- C9 counterexample: a record with `enabled = false`, active status and a
well-formed credential; `VerifyPasswordByID` with the matching secret
returns success, so the layer does authenticate a disabled record. -/
theorem claim_c9_counterexample :
    verifyPasswordByID demoHash [cxDisabledRec] 1 "pw" = Except.ok ()
    ∧ cxDisabledRec.enabled = false
    ∧ cxDisabledRec.status = UserStatusActive := by
  refine ⟨?_, rfl, rfl⟩
  rfl

/-- C9 (amended): the verify-password operations never consult the enabled
flag: on a disabled record whose stored digest matches the supplied secret,
verification by id, username or email succeeds; rejecting disabled records
is left to the host. -/
theorem claim_c9_amended (hash : String → String → String)
    (db : List GormUserModel) (i : Nat) (uname em p : String)
    (g : GormUserModel) (_hdis : g.enabled = false)
    (hstored : g.password = hash p g.salt) :
    (db.find? (fun r => r.id == i) = some g →
      verifyPasswordByID hash db i p = Except.ok ())
    ∧ (db.find? (fun r => r.username == uname) = some g →
      verifyPasswordByUsername hash db uname p = Except.ok ())
    ∧ (db.find? (fun r => r.email == em) = some g →
      verifyPasswordByEmail hash db em p = Except.ok ()) := by
  refine ⟨fun h => ?_, fun h => ?_, fun h => ?_⟩
  · unfold verifyPasswordByID
    rw [h]
    simp [hstored]
  · unfold verifyPasswordByUsername
    rw [h]
    simp [hstored]
  · unfold verifyPasswordByEmail
    rw [h]
    simp [hstored]

/-- C9 witness: the amended theorem evaluated on the concrete disabled
record. -/
theorem claim_c9_witness :
    ([cxDisabledRec].find? (fun r => r.id == 1) = some cxDisabledRec →
      verifyPasswordByID demoHash [cxDisabledRec] 1 "pw" = Except.ok ())
    ∧ ([cxDisabledRec].find? (fun r => r.username == "dave")
          = some cxDisabledRec →
      verifyPasswordByUsername demoHash [cxDisabledRec] "dave" "pw"
        = Except.ok ())
    ∧ ([cxDisabledRec].find? (fun r => r.email == "d@x.com")
          = some cxDisabledRec →
      verifyPasswordByEmail demoHash [cxDisabledRec] "d@x.com" "pw"
        = Except.ok ()) :=
  claim_c9_amended demoHash [cxDisabledRec] 1 "dave" "d@x.com" "pw"
    cxDisabledRec rfl rfl

/-- C5: every keyed operation applied to a key matching no stored record
returns `ErrUserNotFound`: the gets, updates, deletes and verifies by each
of their supported keys, and the enable/disable/set-status single-column
paths, all surface a miss (a zero affected-row count for the mutation
paths) as the single NotFound error, never another error and never a
silent no-op. -/
theorem claim_c5 (hash : String → String → String) (ns : String)
    (db : List GormUserModel) (i : Nat) (uname em pw st : String)
    (m : List (String × FieldValue))
    (hid : ∀ r ∈ db, (r.id == i) = false)
    (hun : ∀ r ∈ db, (r.username == uname) = false)
    (hem : ∀ r ∈ db, (r.email == em) = false) :
    getUserByID db i = Except.error UserErr.userNotFound
    ∧ getUserByUsername db uname = Except.error UserErr.userNotFound
    ∧ getUserByEmail db em = Except.error UserErr.userNotFound
    ∧ updateUserByID hash ns db i m = Except.error UserErr.userNotFound
    ∧ updateUserByUsername hash ns db uname m
        = Except.error UserErr.userNotFound
    ∧ updateUserByEmail hash ns db em m = Except.error UserErr.userNotFound
    ∧ deleteUserByID db i = Except.error UserErr.userNotFound
    ∧ deleteUserByUsername db uname = Except.error UserErr.userNotFound
    ∧ deleteUserByEmail db em = Except.error UserErr.userNotFound
    ∧ verifyPasswordByID hash db i pw = Except.error UserErr.userNotFound
    ∧ verifyPasswordByUsername hash db uname pw
        = Except.error UserErr.userNotFound
    ∧ verifyPasswordByEmail hash db em pw
        = Except.error UserErr.userNotFound
    ∧ enableUserByID db i = Except.error UserErr.userNotFound
    ∧ disableUserByID db i = Except.error UserErr.userNotFound
    ∧ setUserStatusByID db i st = Except.error UserErr.userNotFound
    ∧ setUserStatusByUsername db uname st
        = Except.error UserErr.userNotFound
    ∧ setUserStatusByEmail db em st = Except.error UserErr.userNotFound := by
  have n1 := find?_none_of_nomatch db _ hid
  have n2 := find?_none_of_nomatch db _ hun
  have n3 := find?_none_of_nomatch db _ hem
  have f1 := filter_nil_of_nomatch db _ hid
  have f2 := filter_nil_of_nomatch db _ hun
  have f3 := filter_nil_of_nomatch db _ hem
  simp [getUserByID, getUserByUsername, getUserByEmail, updateUserByID,
    updateUserByUsername, updateUserByEmail, deleteUserByID,
    deleteUserByUsername, deleteUserByEmail, verifyPasswordByID,
    verifyPasswordByUsername, verifyPasswordByEmail, enableUserByID,
    disableUserByID, setUserStatusByID, setUserStatusByUsername,
    setUserStatusByEmail, gormUpdates, gormUpdateColumn,
    n1, n2, n3, f1, f2, f3]

/-- C5 witness: the not-found conjunction evaluated against a concrete
one-record table and keys matching no record. -/
theorem claim_c5_witness :
    getUserByID [wRec] 9 = Except.error UserErr.userNotFound
    ∧ getUserByUsername [wRec] "ghost" = Except.error UserErr.userNotFound
    ∧ getUserByEmail [wRec] "g@x.com" = Except.error UserErr.userNotFound
    ∧ updateUserByID demoHash "ns" [wRec] 9 [("Name", FieldValue.str "N")]
        = Except.error UserErr.userNotFound
    ∧ updateUserByUsername demoHash "ns" [wRec] "ghost"
        [("Name", FieldValue.str "N")] = Except.error UserErr.userNotFound
    ∧ updateUserByEmail demoHash "ns" [wRec] "g@x.com"
        [("Name", FieldValue.str "N")] = Except.error UserErr.userNotFound
    ∧ deleteUserByID [wRec] 9 = Except.error UserErr.userNotFound
    ∧ deleteUserByUsername [wRec] "ghost" = Except.error UserErr.userNotFound
    ∧ deleteUserByEmail [wRec] "g@x.com" = Except.error UserErr.userNotFound
    ∧ verifyPasswordByID demoHash [wRec] 9 "pw"
        = Except.error UserErr.userNotFound
    ∧ verifyPasswordByUsername demoHash [wRec] "ghost" "pw"
        = Except.error UserErr.userNotFound
    ∧ verifyPasswordByEmail demoHash [wRec] "g@x.com" "pw"
        = Except.error UserErr.userNotFound
    ∧ enableUserByID [wRec] 9 = Except.error UserErr.userNotFound
    ∧ disableUserByID [wRec] 9 = Except.error UserErr.userNotFound
    ∧ setUserStatusByID [wRec] 9 "locked"
        = Except.error UserErr.userNotFound
    ∧ setUserStatusByUsername [wRec] "ghost" "locked"
        = Except.error UserErr.userNotFound
    ∧ setUserStatusByEmail [wRec] "g@x.com" "locked"
        = Except.error UserErr.userNotFound :=
  claim_c5 demoHash "ns" [wRec] 9 "ghost" "g@x.com" "pw" "locked"
    [("Name", FieldValue.str "N")] (by decide) (by decide) (by decide)

/-- C2: when a change-set carries a `Password` key holding a string shorter
than the 64-character encoded digest length, every update entry point
rehashes: the normalizer replaces the `Password` entry with the digest of
the supplied value under a freshly generated salt and sets the `Salt`
entry to that salt, and the update then applies the normalized change-set,
so the matched record stores the new digest and salt; a `Password` value
of length 64 or more is passed through unmodified and the `Salt` entry is
left untouched. -/
theorem claim_c2 (hash : String → String → String) (ns : String)
    (m : List (String × FieldValue)) (p : String)
    (db : List GormUserModel) (i : Nat) (uname em : String)
    (u : GormUserModel)
    (hp : mapLookup m "Password" = some (FieldValue.str p))
    (hfid : db.find? (fun r => r.id == i) = some u)
    (hfun : db.find? (fun r => r.username == uname) = some u)
    (hfem : db.find? (fun r => r.email == em) = some u)
    (hnu : mapLookup m "Username" = none)
    (hne : mapLookup m "Email" = none) :
    (p.utf8ByteSize < 64 →
      mapLookup (normalizeUpdate hash ns m) "Password"
          = some (FieldValue.str (hash p ns))
      ∧ mapLookup (normalizeUpdate hash ns m) "Salt"
          = some (FieldValue.str ns)
      ∧ (applyChangeSet u (normalizeUpdate hash ns m)).password = hash p ns
      ∧ (applyChangeSet u (normalizeUpdate hash ns m)).salt = ns)
    ∧ (64 ≤ p.utf8ByteSize →
      mapLookup (normalizeUpdate hash ns m) "Password"
          = some (FieldValue.str p)
      ∧ mapLookup (normalizeUpdate hash ns m) "Salt" = mapLookup m "Salt")
    ∧ updateUserByID hash ns db i m = Except.ok
        (gormUpdates db (fun r => r.id == i) (normalizeUpdate hash ns m)).1
    ∧ (gormUpdates db (fun r => r.id == i)
        (normalizeUpdate hash ns m)).1.find? (fun r => r.id == i)
        = some (applyChangeSet u (normalizeUpdate hash ns m))
    ∧ updateUserByUsername hash ns db uname m = Except.ok
        (gormUpdates db (fun r => r.username == uname)
          (normalizeUpdate hash ns m)).1
    ∧ (gormUpdates db (fun r => r.username == uname)
        (normalizeUpdate hash ns m)).1.find?
          (fun r => r.username == uname)
        = some (applyChangeSet u (normalizeUpdate hash ns m))
    ∧ updateUserByEmail hash ns db em m = Except.ok
        (gormUpdates db (fun r => r.email == em)
          (normalizeUpdate hash ns m)).1
    ∧ (gormUpdates db (fun r => r.email == em)
        (normalizeUpdate hash ns m)).1.find? (fun r => r.email == em)
        = some (applyChangeSet u (normalizeUpdate hash ns m)) := by
  obtain ⟨hA, hB⟩ := updateUserByID_ok hash ns db i m u hfid
  obtain ⟨hC, hD⟩ := updateUserByUsername_ok hash ns db uname m u hfun hnu
  obtain ⟨hE, hF⟩ := updateUserByEmail_ok hash ns db em m u hfem hne
  refine ⟨?_, ?_, hA, hB, hC, hD, hE, hF⟩
  · intro hl
    obtain ⟨h1, h2⟩ := normalizeUpdate_lookup_pw hash ns m p hp hl
    refine ⟨h1, h2, ?_, ?_⟩ <;>
      · unfold applyChangeSet
        simp [h1, h2]
  · intro hl
    have hpass : passwordStep hash ns m = m :=
      passwordStep_passthrough hash ns m p hp hl
    unfold normalizeUpdate
    rw [hpass, dataStep_lookup_ne _ _ (by simp),
      dataStep_lookup_ne _ _ (by simp), hp]
    exact ⟨rfl, rfl⟩

/-- C2 witness: the rehash path evaluated on a concrete change-set holding
a short plaintext password, against a one-record table. -/
theorem claim_c2_witness :
    (("newpw").utf8ByteSize < 64 →
      mapLookup (normalizeUpdate demoHash "ns7"
          [("Password", FieldValue.str "newpw")]) "Password"
          = some (FieldValue.str (demoHash "newpw" "ns7"))
      ∧ mapLookup (normalizeUpdate demoHash "ns7"
          [("Password", FieldValue.str "newpw")]) "Salt"
          = some (FieldValue.str "ns7")
      ∧ (applyChangeSet wRec (normalizeUpdate demoHash "ns7"
          [("Password", FieldValue.str "newpw")])).password
          = demoHash "newpw" "ns7"
      ∧ (applyChangeSet wRec (normalizeUpdate demoHash "ns7"
          [("Password", FieldValue.str "newpw")])).salt = "ns7")
    ∧ (64 ≤ ("newpw").utf8ByteSize →
      mapLookup (normalizeUpdate demoHash "ns7"
          [("Password", FieldValue.str "newpw")]) "Password"
          = some (FieldValue.str "newpw")
      ∧ mapLookup (normalizeUpdate demoHash "ns7"
          [("Password", FieldValue.str "newpw")]) "Salt"
          = mapLookup [("Password", FieldValue.str "newpw")] "Salt")
    ∧ updateUserByID demoHash "ns7" [wRec] 1
        [("Password", FieldValue.str "newpw")] = Except.ok
        (gormUpdates [wRec] (fun r => r.id == 1) (normalizeUpdate demoHash
          "ns7" [("Password", FieldValue.str "newpw")])).1
    ∧ (gormUpdates [wRec] (fun r => r.id == 1) (normalizeUpdate demoHash
        "ns7" [("Password", FieldValue.str "newpw")])).1.find?
          (fun r => r.id == 1)
        = some (applyChangeSet wRec (normalizeUpdate demoHash "ns7"
          [("Password", FieldValue.str "newpw")]))
    ∧ updateUserByUsername demoHash "ns7" [wRec] "walice"
        [("Password", FieldValue.str "newpw")] = Except.ok
        (gormUpdates [wRec] (fun r => r.username == "walice")
          (normalizeUpdate demoHash "ns7"
            [("Password", FieldValue.str "newpw")])).1
    ∧ (gormUpdates [wRec] (fun r => r.username == "walice")
        (normalizeUpdate demoHash "ns7"
          [("Password", FieldValue.str "newpw")])).1.find?
          (fun r => r.username == "walice")
        = some (applyChangeSet wRec (normalizeUpdate demoHash "ns7"
          [("Password", FieldValue.str "newpw")]))
    ∧ updateUserByEmail demoHash "ns7" [wRec] "w@x.com"
        [("Password", FieldValue.str "newpw")] = Except.ok
        (gormUpdates [wRec] (fun r => r.email == "w@x.com")
          (normalizeUpdate demoHash "ns7"
            [("Password", FieldValue.str "newpw")])).1
    ∧ (gormUpdates [wRec] (fun r => r.email == "w@x.com")
        (normalizeUpdate demoHash "ns7"
          [("Password", FieldValue.str "newpw")])).1.find?
          (fun r => r.email == "w@x.com")
        = some (applyChangeSet wRec (normalizeUpdate demoHash "ns7"
          [("Password", FieldValue.str "newpw")])) :=
  claim_c2 demoHash "ns7" [("Password", FieldValue.str "newpw")] "newpw"
    [wRec] 1 "walice" "w@x.com" wRec rfl rfl rfl rfl rfl rfl

/-- C3 counterexample: an update whose `Password` value has 64 bytes (the
digest length) bypasses the rehash heuristic: the stored credential
changes to the supplied value while the stored salt stays what it was, so
a mutation of the credential without a salt rotation is possible and the
digest can be left desynchronized from the salt. -/
theorem claim_c3_counterexample :
    updateUserByID demoHash "freshsalt" [cxRecOld] 1
        [("Password", FieldValue.str hexPad)]
      = Except.ok [{ cxRecOld with password := hexPad }]
    ∧ hexPad ≠ cxRecOld.password
    ∧ ({ cxRecOld with password := hexPad }).salt = cxRecOld.salt
    ∧ hexPad.utf8ByteSize = 64 := by
  refine ⟨rfl, ?_, rfl, ?_⟩ <;> decide

/-- C3 (amended): an update whose change-set is a `Password` entry holding
a value shorter than 64 bytes does rotate the salt: the matched record
stores the freshly generated salt (different from the prior salt whenever
the fresh draw differs) and the digest of the new secret under it; the new
secret then verifies and, absent a hash collision between old and new
secret under the new salt, the old secret is rejected. An update whose
`Password` value has 64 or more bytes bypasses this path and can change
the digest without rotating the salt. -/
theorem claim_c3_amended (hash : String → String → String)
    (ns p p0 : String) (db : List GormUserModel) (i : Nat)
    (u : GormUserModel)
    (hfind : db.find? (fun r => r.id == i) = some u)
    (hlen : p.utf8ByteSize < 64)
    (hrot : ns ≠ u.salt)
    (hcoll : hash p0 ns ≠ hash p ns) :
    updateUserByID hash ns db i [("Password", FieldValue.str p)]
      = Except.ok (gormUpdates db (fun r => r.id == i)
          (normalizeUpdate hash ns [("Password", FieldValue.str p)])).1
    ∧ (applyChangeSet u
        (normalizeUpdate hash ns [("Password", FieldValue.str p)])).salt
        = ns
    ∧ (applyChangeSet u
        (normalizeUpdate hash ns [("Password", FieldValue.str p)])).salt
        ≠ u.salt
    ∧ (applyChangeSet u
        (normalizeUpdate hash ns [("Password", FieldValue.str p)])).password
        = hash p ns
    ∧ verifyPasswordByID hash (gormUpdates db (fun r => r.id == i)
        (normalizeUpdate hash ns [("Password", FieldValue.str p)])).1 i p
        = Except.ok ()
    ∧ verifyPasswordByID hash (gormUpdates db (fun r => r.id == i)
        (normalizeUpdate hash ns [("Password", FieldValue.str p)])).1 i p0
        = Except.error UserErr.invalidPassword := by
  have hp : mapLookup [("Password", FieldValue.str p)] "Password"
      = some (FieldValue.str p) := rfl
  obtain ⟨hok, hfind2⟩ :=
    updateUserByID_ok hash ns db i [("Password", FieldValue.str p)] u hfind
  obtain ⟨h1, h2⟩ := normalizeUpdate_lookup_pw hash ns
    [("Password", FieldValue.str p)] p hp hlen
  have hsalt : (applyChangeSet u
      (normalizeUpdate hash ns [("Password", FieldValue.str p)])).salt
      = ns := by
    unfold applyChangeSet
    simp [h2]
  have hpw : (applyChangeSet u
      (normalizeUpdate hash ns [("Password", FieldValue.str p)])).password
      = hash p ns := by
    unfold applyChangeSet
    simp [h1]
  refine ⟨hok, hsalt, by rw [hsalt]; exact hrot, hpw, ?_, ?_⟩
  · unfold verifyPasswordByID
    rw [hfind2]
    simp [hpw, hsalt]
  · unfold verifyPasswordByID
    rw [hfind2]
    simp [hpw, hsalt, bne_iff_ne, Ne.symm hcoll]

/-- C3 witness: the amended salt-rotation theorem evaluated on a concrete
record with a short replacement password and a fresh salt differing from
the stored one. -/
theorem claim_c3_witness :
    updateUserByID demoHash "freshsalt" [cxRecOld] 1
        [("Password", FieldValue.str "newpw")]
      = Except.ok (gormUpdates [cxRecOld] (fun r => r.id == 1)
          (normalizeUpdate demoHash "freshsalt"
            [("Password", FieldValue.str "newpw")])).1
    ∧ (applyChangeSet cxRecOld (normalizeUpdate demoHash "freshsalt"
        [("Password", FieldValue.str "newpw")])).salt = "freshsalt"
    ∧ (applyChangeSet cxRecOld (normalizeUpdate demoHash "freshsalt"
        [("Password", FieldValue.str "newpw")])).salt ≠ cxRecOld.salt
    ∧ (applyChangeSet cxRecOld (normalizeUpdate demoHash "freshsalt"
        [("Password", FieldValue.str "newpw")])).password
        = demoHash "newpw" "freshsalt"
    ∧ verifyPasswordByID demoHash (gormUpdates [cxRecOld]
        (fun r => r.id == 1) (normalizeUpdate demoHash "freshsalt"
          [("Password", FieldValue.str "newpw")])).1 1 "newpw"
        = Except.ok ()
    ∧ verifyPasswordByID demoHash (gormUpdates [cxRecOld]
        (fun r => r.id == 1) (normalizeUpdate demoHash "freshsalt"
          [("Password", FieldValue.str "newpw")])).1 1 "oldpw"
        = Except.error UserErr.invalidPassword :=
  claim_c3_amended demoHash "freshsalt" "newpw" "oldpw" [cxRecOld] 1
    cxRecOld rfl (by decide) (by decide) (by decide)

/-- C6: when an update change-set carries a `Data` key holding a nested
mapping that the JSON encoder rejects, the normalizer deletes the `Data`
entry instead of failing: the normalized change-set has no `Data` key, the
update still succeeds (returns no error), the matched record's stored
payload is untouched, and the remaining keys of the change-set (here a
`Name` entry) are still applied. -/
theorem claim_c6 (hash : String → String → String) (ns : String)
    (m : List (String × FieldValue)) (d : List (String × GoValue))
    (nm1 : String) (db : List GormUserModel) (i : Nat) (u : GormUserModel)
    (hd : mapLookup m "Data" = some (FieldValue.obj d))
    (hbad : marshalableList d = false)
    (hname : mapLookup m "Name" = some (FieldValue.str nm1))
    (hfid : db.find? (fun r => r.id == i) = some u) :
    mapLookup (normalizeUpdate hash ns m) "Data" = none
    ∧ updateUserByID hash ns db i m = Except.ok
        (gormUpdates db (fun r => r.id == i) (normalizeUpdate hash ns m)).1
    ∧ (gormUpdates db (fun r => r.id == i)
        (normalizeUpdate hash ns m)).1.find? (fun r => r.id == i)
        = some (applyChangeSet u (normalizeUpdate hash ns m))
    ∧ (applyChangeSet u (normalizeUpdate hash ns m)).data = u.data
    ∧ (applyChangeSet u (normalizeUpdate hash ns m)).name = nm1 := by
  obtain ⟨hok, hfind2⟩ := updateUserByID_ok hash ns db i m u hfid
  have hdp : mapLookup (passwordStep hash ns m) "Data"
      = some (FieldValue.obj d) := by
    rw [passwordStep_lookup_ne _ _ _ _ (by simp) (by simp), hd]
  have hnorm : normalizeUpdate hash ns m
      = mapErase (passwordStep hash ns m) "Data" := by
    unfold normalizeUpdate dataStep
    rw [hdp]
    simp [hbad]
  have hdata : mapLookup (normalizeUpdate hash ns m) "Data" = none := by
    rw [hnorm, mapLookup_erase_self]
  have hnamelook : mapLookup (normalizeUpdate hash ns m) "Name"
      = some (FieldValue.str nm1) := by
    rw [hnorm, mapLookup_erase_ne _ _ _ (by simp),
      passwordStep_lookup_ne _ _ _ _ (by simp) (by simp), hname]
  refine ⟨hdata, hok, hfind2, ?_, ?_⟩
  · unfold applyChangeSet
    simp [hdata]
  · unfold applyChangeSet
    simp [hnamelook]

/-- C6 witness: a concrete change-set carrying an unencodable payload
value and a name change, applied to a one-record table. -/
theorem claim_c6_witness :
    mapLookup (normalizeUpdate demoHash "ns"
        [("Data", FieldValue.obj [("k", GoValue.bad)]),
         ("Name", FieldValue.str "NN")]) "Data" = none
    ∧ updateUserByID demoHash "ns" [wRec] 1
        [("Data", FieldValue.obj [("k", GoValue.bad)]),
         ("Name", FieldValue.str "NN")] = Except.ok
        (gormUpdates [wRec] (fun r => r.id == 1)
          (normalizeUpdate demoHash "ns"
            [("Data", FieldValue.obj [("k", GoValue.bad)]),
             ("Name", FieldValue.str "NN")])).1
    ∧ (gormUpdates [wRec] (fun r => r.id == 1)
        (normalizeUpdate demoHash "ns"
          [("Data", FieldValue.obj [("k", GoValue.bad)]),
           ("Name", FieldValue.str "NN")])).1.find? (fun r => r.id == 1)
        = some (applyChangeSet wRec (normalizeUpdate demoHash "ns"
          [("Data", FieldValue.obj [("k", GoValue.bad)]),
           ("Name", FieldValue.str "NN")]))
    ∧ (applyChangeSet wRec (normalizeUpdate demoHash "ns"
        [("Data", FieldValue.obj [("k", GoValue.bad)]),
         ("Name", FieldValue.str "NN")])).data = wRec.data
    ∧ (applyChangeSet wRec (normalizeUpdate demoHash "ns"
        [("Data", FieldValue.obj [("k", GoValue.bad)]),
         ("Name", FieldValue.str "NN")])).name = "NN" :=
  claim_c6 demoHash "ns"
    [("Data", FieldValue.obj [("k", GoValue.bad)]),
     ("Name", FieldValue.str "NN")]
    [("k", GoValue.bad)] "NN" [wRec] 1 wRec rfl rfl rfl rfl

/-- C7: a record created with an absent (nil) or empty extension payload
stores the literal empty-object encoding, and every get operation on it
(by id, username or email) exposes `Data` as an empty mapping, never as an
absent value or an error; independently, a stored payload that fails to
parse (or a zero-length one) is also exposed by `ToUser` as an empty
mapping. -/
theorem claim_c7 (hash : String → String → String) (fid : Nat)
    (fsalt : String) (db : List GormUserModel) (user : User)
    (db2 : List GormUserModel) (u4 : User) (g : GormUserModel)
    (hdata : user.data = none ∨ user.data = some [])
    (hc : createUser hash fid fsalt db user = Except.ok (db2, u4))
    (hg : g.data = JsonBlob.empty ∨ g.data = JsonBlob.malformed) :
    Except.map (fun w => w.data) (getUserByID db2 u4.id)
      = Except.ok (some [])
    ∧ Except.map (fun w => w.data) (getUserByUsername db2 u4.username)
      = Except.ok (some [])
    ∧ Except.map (fun w => w.data) (getUserByEmail db2 u4.email)
      = Except.ok (some [])
    ∧ g.toUser.data = some [] := by
  obtain ⟨hu4, hdb2, hall⟩ :=
    createUser_ok_inv hash fid fsalt db user db2 u4 hc
  have hdatau4 : u4.data = user.data := by
    rw [hu4, createCredentials_eq, createDefaults_eq]
  have hblob : (NewGormUserModelFromUser u4).data = JsonBlob.encoded [] := by
    show mapToBlob u4.data = JsonBlob.encoded []
    rw [hdatau4]
    rcases hdata with h | h <;> simp [h, mapToBlob, marshalableList]
  have hid : db2.find? (fun r => r.id == u4.id)
      = some (NewGormUserModelFromUser u4) := by
    rw [hdb2]
    exact find?_append_singleton db _ _
      (fun r hr => by simp [(hall r hr).1]) (by simp [NewGormUserModelFromUser])
  have hun : db2.find? (fun r => r.username == u4.username)
      = some (NewGormUserModelFromUser u4) := by
    rw [hdb2]
    exact find?_append_singleton db _ _
      (fun r hr => by simp [(hall r hr).2.1]) (by simp [NewGormUserModelFromUser])
  have hem : db2.find? (fun r => r.email == u4.email)
      = some (NewGormUserModelFromUser u4) := by
    rw [hdb2]
    exact find?_append_singleton db _ _
      (fun r hr => by simp [(hall r hr).2.2.1]) (by simp [NewGormUserModelFromUser])
  refine ⟨?_, ?_, ?_, ?_⟩
  · unfold getUserByID
    rw [hid]
    show Except.ok (some (blobToMap (NewGormUserModelFromUser u4).data)) = _
    rw [hblob]
    rfl
  · unfold getUserByUsername
    rw [hun]
    show Except.ok (some (blobToMap (NewGormUserModelFromUser u4).data)) = _
    rw [hblob]
    rfl
  · unfold getUserByEmail
    rw [hem]
    show Except.ok (some (blobToMap (NewGormUserModelFromUser u4).data)) = _
    rw [hblob]
    rfl
  · show some (blobToMap g.data) = some []
    rcases hg with h | h <;> rw [h] <;> rfl

/-- C7 witness: a creation with a nil payload fetched back from the
resulting one-record table, and a malformed stored payload decoded by
`ToUser`. -/
theorem claim_c7_witness :
    Except.map (fun w => w.data) (getUserByID
        [NewGormUserModelFromUser
          (createCredentials demoHash "fs" (createDefaults 11 wUserD))]
        (createCredentials demoHash "fs" (createDefaults 11 wUserD)).id)
      = Except.ok (some [])
    ∧ Except.map (fun w => w.data) (getUserByUsername
        [NewGormUserModelFromUser
          (createCredentials demoHash "fs" (createDefaults 11 wUserD))]
        (createCredentials demoHash "fs"
          (createDefaults 11 wUserD)).username)
      = Except.ok (some [])
    ∧ Except.map (fun w => w.data) (getUserByEmail
        [NewGormUserModelFromUser
          (createCredentials demoHash "fs" (createDefaults 11 wUserD))]
        (createCredentials demoHash "fs" (createDefaults 11 wUserD)).email)
      = Except.ok (some [])
    ∧ ({ wRec with data := JsonBlob.malformed }).toUser.data = some [] :=
  claim_c7 demoHash 11 "fs" [] wUserD
    [NewGormUserModelFromUser
      (createCredentials demoHash "fs" (createDefaults 11 wUserD))]
    (createCredentials demoHash "fs" (createDefaults 11 wUserD))
    { wRec with data := JsonBlob.malformed }
    (Or.inl rfl) rfl (Or.inr rfl)

/-- C8: a creation whose argument has an empty status stores and returns
the default `inactive` status, and a non-empty caller status is kept; a
nil (zero) id is replaced by the freshly generated identifier and a
caller-supplied id is kept; on success the created row is appended to the
table and its id differs from every pre-existing row's id. -/
theorem claim_c8 (hash : String → String → String) (fid : Nat)
    (fsalt : String) (db : List GormUserModel) (user : User)
    (db2 : List GormUserModel) (u4 : User) (v : GormUserModel)
    (hc : createUser hash fid fsalt db user = Except.ok (db2, u4))
    (hv : v ∈ db) :
    (user.status = "" → u4.status = DefaultUserStatus)
    ∧ (user.status ≠ "" → u4.status = user.status)
    ∧ (user.id = 0 → u4.id = fid)
    ∧ (user.id ≠ 0 → u4.id = user.id)
    ∧ db2 = db ++ [NewGormUserModelFromUser u4]
    ∧ v.id ≠ u4.id := by
  obtain ⟨hu4, hdb2, hall⟩ :=
    createUser_ok_inv hash fid fsalt db user db2 u4 hc
  subst hu4
  refine ⟨fun h => ?_, fun h => ?_, fun h => ?_, fun h => ?_,
    hdb2, (hall v hv).1⟩ <;>
    simp [createCredentials_eq, createDefaults_eq, h]

/-- C8 witness: creation of a status-less, id-bearing user next to one
existing record. -/
theorem claim_c8_witness :
    ((cxUserC : User).status = "" →
      (createCredentials demoHash "fs" (createDefaults 9 cxUserC)).status
        = DefaultUserStatus)
    ∧ ((cxUserC : User).status ≠ "" →
      (createCredentials demoHash "fs" (createDefaults 9 cxUserC)).status
        = (cxUserC : User).status)
    ∧ ((cxUserC : User).id = 0 →
      (createCredentials demoHash "fs" (createDefaults 9 cxUserC)).id = 9)
    ∧ ((cxUserC : User).id ≠ 0 →
      (createCredentials demoHash "fs" (createDefaults 9 cxUserC)).id
        = (cxUserC : User).id)
    ∧ [wRec] ++ [NewGormUserModelFromUser
        (createCredentials demoHash "fs" (createDefaults 9 cxUserC))]
      = [wRec] ++ [NewGormUserModelFromUser
        (createCredentials demoHash "fs" (createDefaults 9 cxUserC))]
    ∧ wRec.id ≠ (createCredentials demoHash "fs"
        (createDefaults 9 cxUserC)).id :=
  claim_c8 demoHash 9 "fs" [wRec] cxUserC
    ([wRec] ++ [NewGormUserModelFromUser
      (createCredentials demoHash "fs" (createDefaults 9 cxUserC))])
    (createCredentials demoHash "fs" (createDefaults 9 cxUserC))
    wRec rfl (by simp)

/-- C10 counterexample: `CreateUser` also mutates the status field of its
argument: called with an unset (empty) status, the returned argument
carries the default inactive status, so status is not among the fields
left unchanged by the call. -/
theorem claim_c10_counterexample :
    Except.map (fun r => r.2.status) (createUser demoHash 9 "fs" [] cxUserC)
      = Except.ok "inactive"
    ∧ cxUserC.status = ""
    ∧ ("inactive" : String) ≠ "" := by
  refine ⟨rfl, rfl, ?_⟩
  decide

/-- C10 (amended): on every successful `CreateUser` call the caller's
`User` argument is mutated to reflect the stored record: a nil id becomes
the generated identifier, an empty status becomes the inactive default, an
empty salt becomes the generated salt, and a non-empty plaintext password
shorter than 64 bytes is replaced by its digest under the final salt;
name, username, email, phone, enabled, createdAt and data are unchanged,
as are a non-nil id, a non-empty status, a non-empty salt, and a password
that is empty or at least 64 bytes long. -/
theorem claim_c10_amended (hash : String → String → String) (fid : Nat)
    (fsalt : String) (db : List GormUserModel) (user : User)
    (db2 : List GormUserModel) (u4 : User)
    (hc : createUser hash fid fsalt db user = Except.ok (db2, u4)) :
    u4.name = user.name
    ∧ u4.username = user.username
    ∧ u4.email = user.email
    ∧ u4.phone = user.phone
    ∧ u4.enabled = user.enabled
    ∧ u4.createdAt = user.createdAt
    ∧ u4.data = user.data
    ∧ (user.id = 0 → u4.id = fid)
    ∧ (user.id ≠ 0 → u4.id = user.id)
    ∧ (user.status = "" → u4.status = DefaultUserStatus)
    ∧ (user.status ≠ "" → u4.status = user.status)
    ∧ (user.salt = "" → u4.salt = fsalt)
    ∧ (user.salt ≠ "" → u4.salt = user.salt)
    ∧ (user.password ≠ "" → user.password.utf8ByteSize < 64 →
        u4.password = hash user.password u4.salt)
    ∧ (user.password = "" → u4.password = user.password)
    ∧ (64 ≤ user.password.utf8ByteSize →
        u4.password = user.password) := by
  obtain ⟨hu4, hdb2, hall⟩ :=
    createUser_ok_inv hash fid fsalt db user db2 u4 hc
  subst hu4
  simp only [createCredentials_eq, createDefaults_eq]
  refine ⟨by simp, by simp, by simp, by simp, by simp, by simp, by simp,
    fun h => by simp [h], fun h => by simp [h], fun h => by simp [h],
    fun h => by simp [h], fun h => by simp [h], fun h => by simp [h],
    fun h1 h2 => by simp [h1, h2], fun h => by simp [h],
    fun h => by simp [h, Nat.not_lt.mpr h]⟩

/-- C10 witness: the amended mutation contract evaluated for a creation
with unset id, salt and status and a short plaintext password. -/
theorem claim_c10_witness :
    (createCredentials demoHash "fs" (createDefaults 11 wUserD)).name
      = (wUserD : User).name
    ∧ (createCredentials demoHash "fs" (createDefaults 11 wUserD)).username
      = (wUserD : User).username
    ∧ (createCredentials demoHash "fs" (createDefaults 11 wUserD)).email
      = (wUserD : User).email
    ∧ (createCredentials demoHash "fs" (createDefaults 11 wUserD)).phone
      = (wUserD : User).phone
    ∧ (createCredentials demoHash "fs" (createDefaults 11 wUserD)).enabled
      = (wUserD : User).enabled
    ∧ (createCredentials demoHash "fs" (createDefaults 11 wUserD)).createdAt
      = (wUserD : User).createdAt
    ∧ (createCredentials demoHash "fs" (createDefaults 11 wUserD)).data
      = (wUserD : User).data
    ∧ ((wUserD : User).id = 0 →
      (createCredentials demoHash "fs" (createDefaults 11 wUserD)).id = 11)
    ∧ ((wUserD : User).id ≠ 0 →
      (createCredentials demoHash "fs" (createDefaults 11 wUserD)).id
        = (wUserD : User).id)
    ∧ ((wUserD : User).status = "" →
      (createCredentials demoHash "fs" (createDefaults 11 wUserD)).status
        = DefaultUserStatus)
    ∧ ((wUserD : User).status ≠ "" →
      (createCredentials demoHash "fs" (createDefaults 11 wUserD)).status
        = (wUserD : User).status)
    ∧ ((wUserD : User).salt = "" →
      (createCredentials demoHash "fs" (createDefaults 11 wUserD)).salt
        = "fs")
    ∧ ((wUserD : User).salt ≠ "" →
      (createCredentials demoHash "fs" (createDefaults 11 wUserD)).salt
        = (wUserD : User).salt)
    ∧ ((wUserD : User).password ≠ "" →
      (wUserD : User).password.utf8ByteSize < 64 →
      (createCredentials demoHash "fs" (createDefaults 11 wUserD)).password
        = demoHash (wUserD : User).password
          (createCredentials demoHash "fs" (createDefaults 11 wUserD)).salt)
    ∧ ((wUserD : User).password = "" →
      (createCredentials demoHash "fs" (createDefaults 11 wUserD)).password
        = (wUserD : User).password)
    ∧ (64 ≤ (wUserD : User).password.utf8ByteSize →
      (createCredentials demoHash "fs" (createDefaults 11 wUserD)).password
        = (wUserD : User).password) :=
  claim_c10_amended demoHash 11 "fs" [] wUserD
    [NewGormUserModelFromUser
      (createCredentials demoHash "fs" (createDefaults 11 wUserD))]
    (createCredentials demoHash "fs" (createDefaults 11 wUserD)) rfl
